import Mathlib

/-!
Shallow embedding of mpv's `video/out/w32_common.c` (the win32 window /
input bridge), together with proofs about the behaviour its specification
claims.

Modelling conventions:
* C `int`/`long` window coordinates and sizes are embedded as `Int`
  (no claim here depends on 32-bit wrap-around, and every concrete input
  used stays far below `2^31`).
* C integer division (which truncates toward zero) is embedded as
  `Int.tdiv`.
* The `double` arithmetic in the oversized-window letterboxing is embedded
  as exact rational arithmetic followed by truncation toward zero at the
  points where the C code converts back to `long`; divisions are folded
  into a single truncated division and the `asp > s_asp` comparison is
  cross-multiplied (exact for the positive dimensions the theorems
  assume).
* Platform calls are abstracted into an `Env` record: `AdjustWindowRect`
  becomes an additive per-style border-offset rectangle (exactly the
  linearity that `subtract_window_borders` in the source itself relies
  on), monitor lookup becomes a screen-rectangle function, and so on.
-/

namespace W32

/-- Win32 `RECT`: left/top/right/bottom in screen coordinates. -/
structure Rect where
  left : Int
  top : Int
  right : Int
  bottom : Int
deriving Repr, DecidableEq

/-- mpv `struct mp_rect` (used for `screenrc`): x0/y0/x1/y1. -/
structure MpRect where
  x0 : Int
  y0 : Int
  x1 : Int
  y1 : Int
deriving Repr, DecidableEq

/-- The subset of `struct mp_vo_opts` read by the embedded functions. -/
structure MpVoOpts where
  fullscreen : Bool
  border : Bool
  ontop : Bool
  fit_border : Bool
deriving Repr, DecidableEq

/-- `struct voctrl_playback_state` (percent position kept as an integer). -/
structure PlaybackState where
  taskbar_progress : Bool
  playing : Bool
  paused : Bool
  percent_pos : Int
deriving Repr, DecidableEq

/-- The fields of `struct vo_w32_state` that the embedded operations read
or write.  Platform handles (`HWND`, hooks, taskbar interfaces) and
logging state are omitted; the monitor handle is embedded as an integer
identity. -/
structure VoW32State where
  prev_width : Int
  prev_height : Int
  prev_x : Int
  prev_y : Int
  destroyed : Bool
  window_bounds_initialized : Bool
  current_fs : Bool
  window_x : Int
  window_y : Int
  dw : Int
  dh : Int
  o_dwidth : Int
  o_dheight : Int
  screenrc : MpRect
  monitor : Int
  display_fps : Rat
  color_profile : Option String
  disable_screensaver : Bool
  cursor_visible : Bool
  event_flags : Nat
  high_surrogate : Nat
  current_pstate : PlaybackState
  terminate : Bool
deriving Repr, DecidableEq

/-- External platform facts consumed by the embedded functions:
`screen fs` is the rectangle `update_screen_rect` resolves for the given
fullscreen flag, `adjust frame` is the border-offset rectangle that
`AdjustWindowRect` adds for a framed/frameless style, `monitor`,
`refresh_rate` and `color_profile` describe the monitor under the window,
`iconic` is `IsIconic`, and `profile_bytes_len` is the length
`stream_read_file` would return for the color profile. -/
structure Env where
  screen : Bool → MpRect
  adjust : Bool → Rect
  monitor : Int
  refresh_rate : Rat
  color_profile : Option String
  iconic : Bool
  profile_bytes_len : Nat
  disp_names : List String

/-! ## Event flags and status codes (from `vo.h`) -/

def VO_EVENT_EXPOSE : Nat := 1
def VO_EVENT_RESIZE : Nat := 2
def VO_EVENT_ICC_PROFILE_CHANGED : Nat := 4
def VO_EVENT_WIN_STATE : Nat := 8

def VO_TRUE : Int := 1
def VO_FALSE : Int := 0
def VO_NOTIMPL : Int := -3

/-- `signal_events`: or the given events into the atomic event bitset
(the `vo_wakeup` side effect has no representation in the state). -/
def signal_events (w : VoW32State) (events : Nat) : VoW32State :=
  { w with event_flags := w.event_flags ||| events }

/-! ## Border conversion (`add_window_borders` / `subtract_window_borders`)

The style-dependent platform metrics are a parameter `b : Rect`, the
offsets `AdjustWindowRect` adds for the window's current style. -/

/-- `add_window_borders`: `AdjustWindowRect` modelled as adding the
per-style offset rectangle `b` componentwise. -/
def add_window_borders (b rc : Rect) : Rect :=
  { left := rc.left + b.left, top := rc.top + b.top,
    right := rc.right + b.right, bottom := rc.bottom + b.bottom }

/-- `subtract_window_borders`: computes the borders by applying
`add_window_borders` to the zero rectangle, then subtracts them — exactly
as the source does ("basically a reverse AdjustWindowRect"). -/
def subtract_window_borders (b rc : Rect) : Rect :=
  let bb := add_window_borders b { left := 0, top := 0, right := 0, bottom := 0 }
  { left := rc.left - bb.left, top := rc.top - bb.top,
    right := rc.right - bb.right, bottom := rc.bottom - bb.bottom }

/-! ## UTF-16 decoding (`decode_surrogate_pair` / `decode_utf16`) -/

def IS_HIGH_SURROGATE (c : Nat) : Bool := 0xD800 ≤ c && c ≤ 0xDBFF

def IS_LOW_SURROGATE (c : Nat) : Bool := 0xDC00 ≤ c && c ≤ 0xDFFF

/-- `decode_surrogate_pair`: `0x10000 + (((lead & 0x3ff) << 10) | (trail & 0x3ff))`. -/
def decode_surrogate_pair (lead trail : Nat) : Nat :=
  0x10000 + (((lead &&& 0x3ff) <<< 10) ||| (trail &&& 0x3ff))

/-- Result of one `decode_utf16` step: the new `high_surrogate` decoder
state, the returned codepoint (`0` = no character), and whether
`MP_ERR("Invalid UTF-16 input")` was logged. -/
structure DecodeResult where
  state : Nat
  code : Nat
  invalid : Bool
deriving Repr, DecidableEq

/-- `decode_utf16`: one step of the decoder, with the pending high
surrogate passed in as `hs` (the `w32->high_surrogate` field). -/
def decode_utf16 (hs : Nat) (c : Nat) : DecodeResult :=
  if IS_HIGH_SURROGATE c then
    { state := c, code := 0, invalid := false }
  else if IS_LOW_SURROGATE c then
    if hs = 0 then
      { state := hs, code := 0, invalid := true }
    else
      { state := 0, code := decode_surrogate_pair hs c, invalid := false }
  else if hs ≠ 0 then
    { state := 0, code := 0, invalid := true }
  else
    { state := hs, code := c, invalid := false }

/-! ## Key-up handling (`handle_key_up`) -/

def VK_SHIFT : Nat := 0x10
def VK_CONTROL : Nat := 0x11
def VK_MENU : Nat := 0x12

/-- What `handle_key_up` sends to the input sink. -/
inductive KeyUpAction where
  | noop
  | releaseAll
deriving Repr, DecidableEq

/-- `handle_key_up`: the `switch (vkey)` with fallthrough cases
`VK_MENU`, `VK_CONTROL`, `VK_SHIFT` doing nothing and the default case
putting `MP_INPUT_RELEASE_ALL`. -/
def handle_key_up (vkey : Nat) : KeyUpAction :=
  if vkey = VK_MENU ∨ vkey = VK_CONTROL ∨ vkey = VK_SHIFT then
    KeyUpAction.noop
  else
    KeyUpAction.releaseAll

/-! ## Geometry engine -/

/-- `update_style`, reduced to the one bit of the style the embedding
needs: whether the window has a frame (`FRAME` iff
`opts->border && !current_fs`, else `NO_FRAME`). -/
def update_style (opts : MpVoOpts) (fs : Bool) : Bool :=
  opts.border && !fs

/-- Result of the oversized-window handling: the new client size
(`w32->dw`/`w32->dh`), the final window rectangle passed to
`SetWindowPos`, and the new client-area position
(`w32->window_x`/`w32->window_y`). -/
structure FitResult where
  dw : Int
  dh : Int
  win : Rect
  window_x : Int
  window_y : Int
deriving Repr, DecidableEq

/-- The oversized-window block of `reinit_window_state` (the spec's
`fit_to_screen`): `cr` is the client rectangle, `r = add_window_borders b cr`
the window rectangle.  The `double` letterbox arithmetic is exact rational
arithmetic truncated toward zero where the C code stores into `long`
(`n_w / asp = n_w*ch/cw`, `n_h * asp = n_h*cw/ch`), and `asp > s_asp` is
cross-multiplied (`cw * n_h > n_w * ch`), exact for positive dimensions. -/
def fit_to_screen (fitb : Bool) (b : Rect) (screen_w screen_h : Int)
    (cr r : Rect) : FitResult :=
  let n_w0 : Int := if fitb then
      screen_w - (r.right - cr.right) - (cr.left - r.left) else screen_w
  let n_h0 : Int := if fitb then
      screen_h - (r.bottom - cr.bottom) - (cr.top - r.top) else screen_h
  let cw := cr.right - cr.left
  let ch := cr.bottom - cr.top
  let n_w1 := if cw * n_h0 > n_w0 * ch then n_w0 else Int.tdiv (n_h0 * cw) ch
  let n_h1 := if cw * n_h0 > n_w0 * ch then Int.tdiv (n_w0 * ch) cw else n_h0
  let o_cx := r.left + Int.tdiv (r.right - r.left) 2
  let o_cy := r.top + Int.tdiv (r.bottom - r.top) 2
  let r2 := add_window_borders b { left := 0, top := 0, right := n_w1, bottom := n_h1 }
  let b_top := -r2.top
  let b_left := -r2.left
  let n_w2 := r2.right - r2.left
  let n_h2 := r2.bottom - r2.top
  let fl := o_cx - Int.tdiv n_w2 2
  let ft := o_cy - Int.tdiv n_h2 2
  { dw := n_w1, dh := n_h1,
    win := { left := fl, top := ft, right := fl + n_w2, bottom := ft + n_h2 },
    window_x := fl + b_left, window_y := ft + b_top }

/-- `reinit_window_state` for a non-embedded window (`w32->parent == 0`;
the function returns immediately otherwise).  `update_screen_rect` is
modelled by `env.screen`, taskbar marking and `SetWindowLong`/
`SetWindowPos` have no further state effect (the fields the resulting
`WM_MOVE`/`WM_SIZE` would report are already written directly). -/
def reinit_window_state (env : Env) (opts : MpVoOpts) (w : VoW32State) :
    VoW32State :=
  let new_fs := opts.fullscreen
  let toggle_fs := w.current_fs != new_fs
  let w := { w with current_fs := new_fs }
  let w := { w with screenrc := env.screen new_fs }
  let screen_w := w.screenrc.x1 - w.screenrc.x0
  let screen_h := w.screenrc.y1 - w.screenrc.y0
  let w :=
    if w.current_fs then
      let w := if toggle_fs then
          { w with prev_width := w.dw, prev_height := w.dh,
                   prev_x := w.window_x, prev_y := w.window_y }
        else w
      { w with window_x := w.screenrc.x0, window_y := w.screenrc.y0,
               dw := screen_w, dh := screen_h }
    else
      if toggle_fs then
        { w with dw := w.prev_width, dh := w.prev_height,
                 window_x := w.prev_x, window_y := w.prev_y }
      else w
  let cr : Rect := { left := w.window_x, top := w.window_y,
                     right := w.window_x + w.dw, bottom := w.window_y + w.dh }
  let b := env.adjust (update_style opts w.current_fs)
  let r := add_window_borders b cr
  let o_w := if opts.fit_border then r.right - r.left else cr.right - cr.left
  let o_h := if opts.fit_border then r.bottom - r.top else cr.bottom - cr.top
  let w :=
    if !w.current_fs && (o_w > screen_w || o_h > screen_h) then
      let f := fit_to_screen opts.fit_border b screen_w screen_h cr r
      { w with dw := f.dw, dh := f.dh,
               window_x := f.window_x, window_y := f.window_y }
    else w
  signal_events w VO_EVENT_RESIZE

/-! ## Display info and the control façade -/

/-- `update_display_info`: re-query the monitor under the window; on a
monitor change refresh the cached refresh rate and color profile and
signal the corresponding events. -/
def update_display_info (env : Env) (w : VoW32State) : VoW32State :=
  if w.monitor = env.monitor then w
  else
    let w := { w with monitor := env.monitor }
    let freq := env.refresh_rate
    let w := if freq ≠ w.display_fps then
        signal_events { w with display_fps := freq } VO_EVENT_WIN_STATE
      else w
    if (env.color_profile.isSome ≠ w.color_profile.isSome) ∨
        (env.color_profile.isSome ∧ env.color_profile ≠ w.color_profile) then
      signal_events { w with color_profile := env.color_profile }
        VO_EVENT_ICC_PROFILE_CHANGED
    else w

/-- VOCTRL requests handled by `gui_thread_control` (with their
arguments); `OTHER` stands for any request not in the switch. -/
inductive VoRequest where
  | FULLSCREEN
  | ONTOP
  | BORDER
  | GET_UNFS_WINDOW_SIZE
  | SET_UNFS_WINDOW_SIZE (w h : Int)
  | GET_WIN_STATE
  | SET_CURSOR_VISIBILITY (v : Bool)
  | KILL_SCREENSAVER
  | RESTORE_SCREENSAVER
  | UPDATE_WINDOW_TITLE (title : String)
  | UPDATE_PLAYBACK_STATE (ps : PlaybackState)
  | GET_DISPLAY_FPS
  | GET_DISPLAY_NAMES
  | GET_ICC_PROFILE
  | OTHER
deriving Repr, DecidableEq

/-- Out-parameter written by a control request. -/
inductive VoOut where
  | unit
  | size (w h : Int)
  | winState (minimized : Bool)
  | fps (f : Rat)
  | names (l : List String)
  | icc (profile : Option String)
deriving Repr, DecidableEq

/-- `gui_thread_control`: runs on the GUI thread; returns the new state,
the `VO_*` status, and the out-parameter. -/
def gui_thread_control (env : Env) (opts : MpVoOpts) (w : VoW32State) :
    VoRequest → VoW32State × Int × VoOut
  | .FULLSCREEN =>
      (if opts.fullscreen != w.current_fs then reinit_window_state env opts w
       else w, VO_TRUE, .unit)
  | .ONTOP => (reinit_window_state env opts w, VO_TRUE, .unit)
  | .BORDER => (reinit_window_state env opts w, VO_TRUE, .unit)
  | .GET_UNFS_WINDOW_SIZE =>
      if !w.window_bounds_initialized then (w, VO_FALSE, .unit)
      else
        (w, VO_TRUE,
         .size (if w.current_fs then w.prev_width else w.dw)
               (if w.current_fs then w.prev_height else w.dh))
  | .SET_UNFS_WINDOW_SIZE sw sh =>
      if !w.window_bounds_initialized then (w, VO_FALSE, .unit)
      else
        let w :=
          if w.current_fs then
            { w with
              prev_x := w.prev_x + Int.tdiv w.prev_width 2 - Int.tdiv sw 2,
              prev_y := w.prev_y + Int.tdiv w.prev_height 2 - Int.tdiv sh 2,
              prev_width := sw, prev_height := sh }
          else
            { w with
              window_x := w.window_x + Int.tdiv w.dw 2 - Int.tdiv sw 2,
              window_y := w.window_y + Int.tdiv w.dh 2 - Int.tdiv sh 2,
              dw := sw, dh := sh }
        (reinit_window_state env opts w, VO_TRUE, .unit)
  | .GET_WIN_STATE => (w, VO_TRUE, .winState env.iconic)
  | .SET_CURSOR_VISIBILITY v =>
      ({ w with cursor_visible := v }, VO_TRUE, .unit)
  | .KILL_SCREENSAVER =>
      ({ w with disable_screensaver := true }, VO_TRUE, .unit)
  | .RESTORE_SCREENSAVER =>
      ({ w with disable_screensaver := false }, VO_TRUE, .unit)
  | .UPDATE_WINDOW_TITLE _ => (w, VO_TRUE, .unit)
  | .UPDATE_PLAYBACK_STATE ps =>
      ({ w with current_pstate := ps }, VO_TRUE, .unit)
  | .GET_DISPLAY_FPS =>
      let w := update_display_info env w
      (w, VO_TRUE, .fps w.display_fps)
  | .GET_DISPLAY_NAMES => (w, VO_TRUE, .names env.disp_names)
  | .GET_ICC_PROFILE =>
      let w := update_display_info env w
      match w.color_profile with
      | some p =>
          (w, if env.profile_bytes_len > 0 then VO_TRUE else VO_FALSE,
           .icc (some p))
      | none => (w, VO_FALSE, .unit)
  | .OTHER => (w, VO_NOTIMPL, .unit)

/-! ## Cross-thread dispatch queue

Modelled from the spec: the Dispatch Queue itself (`mp_dispatch_queue`
from `misc/dispatch.c`) is not among the given sources — only its callers
(`WndProc`'s `WM_USER` handler, `vo_w32_control`, `run_message_loop`,
`do_terminate`) are.  Following §4.1/§5 of the spec it is a FIFO task
queue: any number of caller threads append (`submit_async`/`submit_sync`,
interleaved in an arbitrary order), and the single consuming GUI thread
removes tasks from the front and runs each one atomically (one whole task
per step, so tasks never run concurrently with each other or with direct
message handling). -/

/-- State of the dispatch system: the full submission history (in the
order the submissions hit the queue), the tasks still pending, and the
tasks the GUI thread has executed, in execution order. -/
structure DispatchState (Task : Type) where
  submitted : List Task
  pending : List Task
  executed : List Task
deriving Repr, DecidableEq

/-- Modelled from the spec: one atomic step of the dispatch system —
either some caller thread submits a task (appended at the tail), or the
GUI thread dequeues the head task and executes it to completion. -/
inductive DispatchStep (Task : Type) : DispatchState Task → DispatchState Task → Prop where
  | submit (t : Task) (s : DispatchState Task) :
      DispatchStep Task s
        { submitted := s.submitted ++ [t], pending := s.pending ++ [t],
          executed := s.executed }
  | process (t : Task) (rest : List Task) (s : DispatchState Task)
      (h : s.pending = t :: rest) :
      DispatchStep Task s
        { submitted := s.submitted, pending := rest,
          executed := s.executed ++ [t] }

/-- States reachable from the empty queue by any interleaving of
submissions and processing steps. -/
inductive DispatchReachable (Task : Type) : DispatchState Task → Prop where
  | init : DispatchReachable Task { submitted := [], pending := [], executed := [] }
  | step {s s' : DispatchState Task} :
      DispatchReachable Task s → DispatchStep Task s s' → DispatchReachable Task s'

/-! ## GUI-thread shutdown (`run_message_loop` tail / `do_terminate`)

The message pump itself and `mp_dispatch_queue_process` are platform or
out-of-src code; modelled from the spec, processing the queue runs every
queued task to completion in order.  The task bodies are from the source:
`do_terminate` sets `terminate`, destroys the window and interrupts the
queue's wait; any other dispatched closure (e.g. the body of a pending
`submit_sync`) leaves the loop state alone. -/

/-- A task dispatched to the GUI thread during shutdown: `terminateTask`
is `do_terminate`, `work` is any other dispatched closure (such as a
pending synchronous control call). -/
inductive GuiTask where
  | terminateTask
  | work
deriving Repr, DecidableEq

/-- The loop-relevant state of the GUI thread after the message pump has
quit: the `terminate` and `destroyed` flags, the tasks still pending in
the dispatch queue, and the tasks already executed. -/
structure LoopState where
  terminate : Bool
  destroyed : Bool
  pending : List GuiTask
  executed : List GuiTask
deriving Repr, DecidableEq

/-- Run one dispatched task on the GUI thread.  `do_terminate` (from the
source) sets `terminate := true` and destroys the window if not already
destroyed; other tasks only get recorded as executed. -/
def run_task (w : LoopState) (t : GuiTask) : LoopState :=
  let w := { w with executed := w.executed ++ [t] }
  match t with
  | .terminateTask => { w with terminate := true, destroyed := true }
  | .work => w

/-- Modelled from the spec: `mp_dispatch_queue_process` drains the queue,
running every pending task in FIFO order. -/
def process_queue (w : LoopState) : LoopState :=
  List.foldl run_task { w with pending := [] } w.pending

/-- The fallback loop at the end of `run_message_loop`:
`while (!w32->terminate) mp_dispatch_queue_process(w32->dispatch, 1000);`
unrolled against a fuel bound; `some w` means the loop exited (and
`run_message_loop` returned) within that many iterations, `none` means it
was still running. -/
def drain_loop : Nat → LoopState → Option LoopState
  | 0, w => if w.terminate then some w else none
  | n + 1, w => if w.terminate then some w else drain_loop n (process_queue w)

/-! ## Concrete fixtures (used by witnesses and counterexamples) -/

/-- A concrete environment: a 1920×1080 primary screen, framed windows
get the classic 8/31/8/8 decoration offsets, frameless windows none. -/
def env0 : Env :=
  { screen := fun _ => { x0 := 0, y0 := 0, x1 := 1920, y1 := 1080 },
    adjust := fun f =>
      if f then { left := -8, top := -31, right := 8, bottom := 8 }
      else { left := 0, top := 0, right := 0, bottom := 0 },
    monitor := 1, refresh_rate := 60, color_profile := none,
    iconic := false, profile_bytes_len := 0, disp_names := [] }

def ps0 : PlaybackState :=
  { taskbar_progress := false, playing := false, paused := false,
    percent_pos := 0 }

/-- A concrete windowed state at `(100, 100, 800, 600)`. -/
def w0 : VoW32State :=
  { prev_width := 0, prev_height := 0, prev_x := 0, prev_y := 0,
    destroyed := false, window_bounds_initialized := true,
    current_fs := false,
    window_x := 100, window_y := 100, dw := 800, dh := 600,
    o_dwidth := 800, o_dheight := 600,
    screenrc := { x0 := 0, y0 := 0, x1 := 1920, y1 := 1080 },
    monitor := 1, display_fps := 60, color_profile := none,
    disable_screensaver := false, cursor_visible := true, event_flags := 0,
    high_surrogate := 0, current_pstate := ps0, terminate := false }

/-- Windowed options: bordered, fit-border on, not fullscreen. -/
def optsW : MpVoOpts :=
  { fullscreen := false, border := true, ontop := false, fit_border := true }

/-- The same options with fullscreen requested. -/
def optsF : MpVoOpts := { optsW with fullscreen := true }

/-- Borderless options (zero decoration offsets under `env0.adjust`). -/
def opts_nb : MpVoOpts :=
  { fullscreen := false, border := false, ontop := false, fit_border := true }

def opts_nb_fs : MpVoOpts := { opts_nb with fullscreen := true }

/-- A windowed state whose client area (2000×600) is wider than the
1920-wide screen. -/
def w_big : VoW32State := { w0 with window_x := 0, window_y := 0, dw := 2000, dh := 600 }

/-- `w0` before the first reconfiguration initialized the bounds. -/
def w_uninit : VoW32State := { w0 with window_bounds_initialized := false }

/-- A dispatch-system state reached by submitting tasks `7` and `8` and
processing the first of them. -/
def dispatch_demo : DispatchState Nat :=
  { submitted := [7, 8], pending := [8], executed := [7] }

/-- A shutdown state: a pending synchronous work item was submitted, then
`do_terminate` was dispatched; the loop has not yet observed `terminate`. -/
def loop_demo : LoopState :=
  { terminate := false, destroyed := false,
    pending := [GuiTask.work, GuiTask.terminateTask], executed := [] }

/-! # Theorems -/

/-- C5: For every rectangle `r` and a fixed window style (unchanged
between the two calls, i.e. the same border-offset rectangle `b`),
removing window borders from the border-added rectangle returns exactly
`r`: `subtract_window_borders (add_window_borders r) = r`. -/
theorem border_round_trip_c5 (b rc : Rect) :
    subtract_window_borders b (add_window_borders b rc) = rc := by
  cases b
  cases rc
  simp [subtract_window_borders, add_window_borders]

/-- C7: The UTF-16 decoder, started empty, accepts the high surrogate
`0xD83D` (storing it, yielding no character), then the low surrogate
`0xDE00`, yielding codepoint `0x1F600` with the state reset; a low
surrogate arriving while no high surrogate is pending logs an error,
yields no character (returns 0), and leaves the decoder state empty. -/
theorem utf16_decode_c7 :
    decode_utf16 0 0xD83D = { state := 0xD83D, code := 0, invalid := false } ∧
    decode_utf16 0xD83D 0xDE00 = { state := 0, code := 0x1F600, invalid := false } ∧
    decode_utf16 0 0xDE00 = { state := 0, code := 0, invalid := true } := by
  decide

/-- C8: Every key-up emits a release-all to the input sink, except when
the released virtual key is a bare modifier — `VK_SHIFT`, `VK_CONTROL`
or `VK_MENU` (Alt) — in which case nothing is released. -/
theorem key_up_release_all_c8 (vkey : Nat) :
    handle_key_up vkey = KeyUpAction.releaseAll ↔
      vkey ≠ VK_SHIFT ∧ vkey ≠ VK_CONTROL ∧ vkey ≠ VK_MENU := by
  by_cases h : vkey = VK_MENU ∨ vkey = VK_CONTROL ∨ vkey = VK_SHIFT
  · simp [handle_key_up, h]
    tauto
  · simp [handle_key_up, h]
    tauto

/-- C1: In every reachable state of the dispatch system — i.e. under any
interleaving of `submit_async`/`submit_sync` calls from any set of caller
threads with the GUI thread's processing — the sequence of executed tasks
followed by the still-pending tasks equals the submission sequence: tasks
execute serially on the single consuming thread, in submission order, and
every state mutation they perform is linearized through that thread (each
`DispatchStep.process` runs one whole task atomically, never concurrently
with another task or with direct message handling). -/
theorem dispatch_fifo_c1 {Task : Type} (s : DispatchState Task)
    (h : DispatchReachable Task s) :
    s.executed ++ s.pending = s.submitted := by
  induction h with
  | init => rfl
  | step _ hstep ih =>
    cases hstep with
    | submit t s =>
      simp only []
      rw [← List.append_assoc, ih]
    | process t rest s hp =>
      simp only []
      rw [List.append_assoc, ← ih, hp]
      rfl

/-- Witness for C1: the state reached by submitting tasks 7 and 8 and
processing the first is linearized in submission order. -/
theorem dispatch_fifo_c1_witness :
    dispatch_demo.executed ++ dispatch_demo.pending = dispatch_demo.submitted := by
  have h0 : DispatchReachable Nat { submitted := [], pending := [], executed := [] } :=
    DispatchReachable.init
  have h1 := DispatchReachable.step h0 (DispatchStep.submit 7 _)
  have h2 := DispatchReachable.step h1 (DispatchStep.submit 8 _)
  have h3 := DispatchReachable.step h2 (DispatchStep.process 7 [8] _ rfl)
  exact dispatch_fifo_c1 dispatch_demo h3

theorem run_task_pending (w : LoopState) (t : GuiTask) :
    (run_task w t).pending = w.pending := by
  cases t <;> simp [run_task]

theorem run_task_executed (w : LoopState) (t : GuiTask) :
    (run_task w t).executed = w.executed ++ [t] := by
  cases t <;> simp [run_task]

theorem run_task_terminate (w : LoopState) (t : GuiTask) :
    (run_task w t).terminate = (w.terminate || (t == GuiTask.terminateTask)) := by
  cases t <;> simp [run_task]

theorem foldl_run_task_pending (l : List GuiTask) (w : LoopState) :
    (List.foldl run_task w l).pending = w.pending := by
  induction l generalizing w with
  | nil => rfl
  | cons t l ih => rw [List.foldl_cons, ih, run_task_pending]

theorem foldl_run_task_executed (l : List GuiTask) (w : LoopState) :
    (List.foldl run_task w l).executed = w.executed ++ l := by
  induction l generalizing w with
  | nil => simp
  | cons t l ih => rw [List.foldl_cons, ih, run_task_executed]; simp

theorem foldl_run_task_terminate_mono (l : List GuiTask) (w : LoopState)
    (h : w.terminate = true) :
    (List.foldl run_task w l).terminate = true := by
  induction l generalizing w with
  | nil => exact h
  | cons t l ih =>
    rw [List.foldl_cons]
    exact ih _ (by rw [run_task_terminate, h]; rfl)

theorem foldl_run_task_terminate_of_mem (l : List GuiTask) (w : LoopState)
    (h : GuiTask.terminateTask ∈ l) :
    (List.foldl run_task w l).terminate = true := by
  induction l generalizing w with
  | nil => cases h
  | cons t l ih =>
    rw [List.foldl_cons]
    rcases List.mem_cons.mp h with h | h
    · exact foldl_run_task_terminate_mono l _ (by rw [← h, run_task_terminate]; simp)
    · exact ih _ h

/-- C2: The teardown never blocks forever: if `do_terminate` is pending
in the dispatch queue when the fallback loop at the end of
`run_message_loop` runs (even with another thread's synchronous
submission still pending ahead of or behind it), then within a single
`mp_dispatch_queue_process` pass the loop executes every pending task —
so the pending `submit_sync` caller is unblocked — observes `terminate`,
and returns, letting the GUI thread exit and `vo_w32_uninit`'s
`pthread_join` (and hence `vo_w32_uninit` itself) return. -/
theorem terminate_drains_c2 (w : LoopState)
    (hmem : GuiTask.terminateTask ∈ w.pending) (hterm : w.terminate = false) :
    drain_loop 1 w = some (process_queue w) ∧
    (process_queue w).terminate = true ∧
    (process_queue w).pending = [] ∧
    (process_queue w).executed = w.executed ++ w.pending := by
  have ht : (process_queue w).terminate = true :=
    foldl_run_task_terminate_of_mem w.pending _ hmem
  refine ⟨?_, ht, ?_, ?_⟩
  · simp [drain_loop, hterm, ht]
  · exact foldl_run_task_pending w.pending _
  · exact foldl_run_task_executed w.pending _

/-- Witness for C2: with a pending synchronous work item submitted before
`do_terminate`, the loop returns after one pass having executed both. -/
theorem terminate_drains_c2_witness :
    drain_loop 1 loop_demo = some (process_queue loop_demo) ∧
    (process_queue loop_demo).terminate = true ∧
    (process_queue loop_demo).pending = [] ∧
    (process_queue loop_demo).executed = loop_demo.executed ++ loop_demo.pending :=
  terminate_drains_c2 loop_demo (by decide) rfl

/-- C9: `VOCTRL_GET_UNFS_WINDOW_SIZE` and `VOCTRL_SET_UNFS_WINDOW_SIZE`
return the failed status `VO_FALSE` while `window_bounds_initialized` is
still false, and in that case return the state completely unchanged (no
field of `vo_w32_state` is written) and write no out-parameter. -/
theorem unfs_size_uninit_c9 (env : Env) (opts : MpVoOpts) (w : VoW32State)
    (sw sh : Int) (h : w.window_bounds_initialized = false) :
    gui_thread_control env opts w VoRequest.GET_UNFS_WINDOW_SIZE =
      (w, VO_FALSE, VoOut.unit) ∧
    gui_thread_control env opts w (VoRequest.SET_UNFS_WINDOW_SIZE sw sh) =
      (w, VO_FALSE, VoOut.unit) := by
  constructor <;> simp [gui_thread_control, h]

/-- Witness for C9: on the concrete pre-initialization state both
requests fail with `VO_FALSE` and leave the state untouched. -/
theorem unfs_size_uninit_c9_witness :
    gui_thread_control env0 optsW w_uninit VoRequest.GET_UNFS_WINDOW_SIZE =
      (w_uninit, VO_FALSE, VoOut.unit) ∧
    gui_thread_control env0 optsW w_uninit (VoRequest.SET_UNFS_WINDOW_SIZE 640 480) =
      (w_uninit, VO_FALSE, VoOut.unit) :=
  unfs_size_uninit_c9 env0 optsW w_uninit 640 480 rfl

/-- C10: A `VOCTRL_FULLSCREEN` request whose requested flag
(`opts->fullscreen`) already equals `current_fs` returns the handled
status `VO_TRUE` without calling `reinit_window_state`, leaving the whole
state — in particular `window_x`, `window_y`, `dw`, `dh` and all four
`prev_*` fields — unchanged. -/
theorem fullscreen_idempotent_c10 (env : Env) (opts : MpVoOpts)
    (w : VoW32State) (h : opts.fullscreen = w.current_fs) :
    gui_thread_control env opts w VoRequest.FULLSCREEN =
      (w, VO_TRUE, VoOut.unit) := by
  simp [gui_thread_control, h]

/-- Witness for C10: requesting windowed mode while already windowed on
the concrete state returns `VO_TRUE` and the identical state. -/
theorem fullscreen_idempotent_c10_witness :
    gui_thread_control env0 optsW w0 VoRequest.FULLSCREEN =
      (w0, VO_TRUE, VoOut.unit) :=
  fullscreen_idempotent_c10 env0 optsW w0 rfl

theorem reinit_current_fs (env : Env) (opts : MpVoOpts) (w : VoW32State) :
    (reinit_window_state env opts w).current_fs = opts.fullscreen := by
  cases ho : opts.fullscreen <;> cases hc : w.current_fs <;>
    simp [reinit_window_state, signal_events, ho, hc, apply_ite]

theorem reinit_prev_unchanged (env : Env) (opts : MpVoOpts) (w : VoW32State)
    (h : ¬(opts.fullscreen = true ∧ w.current_fs = false)) :
    (reinit_window_state env opts w).prev_x = w.prev_x ∧
    (reinit_window_state env opts w).prev_y = w.prev_y ∧
    (reinit_window_state env opts w).prev_width = w.prev_width ∧
    (reinit_window_state env opts w).prev_height = w.prev_height := by
  cases ho : opts.fullscreen <;> cases hc : w.current_fs <;>
    simp [reinit_window_state, signal_events, ho, hc, apply_ite] at h ⊢

/-- C4: `reinit_window_state` writes the windowed-mode snapshot fields
`prev_x`/`prev_y`/`prev_width`/`prev_height` only on a
windowed-to-fullscreen transition: whenever the run is not such a
transition (already fullscreen, staying windowed, or leaving fullscreen)
all four are left unchanged; in particular running the fullscreen
reconfiguration a second time without an intervening exit leaves the
saved values untouched. -/
theorem prev_saved_once_c4 :
    (∀ (env : Env) (opts : MpVoOpts) (w : VoW32State),
      ¬(opts.fullscreen = true ∧ w.current_fs = false) →
      (reinit_window_state env opts w).prev_x = w.prev_x ∧
      (reinit_window_state env opts w).prev_y = w.prev_y ∧
      (reinit_window_state env opts w).prev_width = w.prev_width ∧
      (reinit_window_state env opts w).prev_height = w.prev_height) ∧
    (∀ (env : Env) (opts : MpVoOpts) (w : VoW32State),
      opts.fullscreen = true →
      (reinit_window_state env opts (reinit_window_state env opts w)).prev_x =
        (reinit_window_state env opts w).prev_x ∧
      (reinit_window_state env opts (reinit_window_state env opts w)).prev_y =
        (reinit_window_state env opts w).prev_y ∧
      (reinit_window_state env opts (reinit_window_state env opts w)).prev_width =
        (reinit_window_state env opts w).prev_width ∧
      (reinit_window_state env opts (reinit_window_state env opts w)).prev_height =
        (reinit_window_state env opts w).prev_height) := by
  refine ⟨fun env opts w h => reinit_prev_unchanged env opts w h, ?_⟩
  intro env opts w ho
  refine reinit_prev_unchanged env opts _ ?_
  rw [reinit_current_fs, ho]
  simp

/-- Witness for C4: on the concrete windowed state, a run that stays
windowed preserves `prev_*`, and a second fullscreen run after entering
fullscreen preserves the snapshot saved by the first. -/
theorem prev_saved_once_c4_witness :
    ((reinit_window_state env0 optsW w0).prev_x = w0.prev_x ∧
     (reinit_window_state env0 optsW w0).prev_y = w0.prev_y ∧
     (reinit_window_state env0 optsW w0).prev_width = w0.prev_width ∧
     (reinit_window_state env0 optsW w0).prev_height = w0.prev_height) ∧
    ((reinit_window_state env0 optsF (reinit_window_state env0 optsF w0)).prev_x =
       (reinit_window_state env0 optsF w0).prev_x ∧
     (reinit_window_state env0 optsF (reinit_window_state env0 optsF w0)).prev_y =
       (reinit_window_state env0 optsF w0).prev_y ∧
     (reinit_window_state env0 optsF (reinit_window_state env0 optsF w0)).prev_width =
       (reinit_window_state env0 optsF w0).prev_width ∧
     (reinit_window_state env0 optsF (reinit_window_state env0 optsF w0)).prev_height =
       (reinit_window_state env0 optsF w0).prev_height) :=
  ⟨prev_saved_once_c4.1 env0 optsW w0 (by decide),
   prev_saved_once_c4.2 env0 optsF w0 rfl⟩

theorem reinit_enter_fields (env : Env) (opts : MpVoOpts) (w : VoW32State)
    (hc : w.current_fs = false) (ho : opts.fullscreen = true) :
    (reinit_window_state env opts w).prev_x = w.window_x ∧
    (reinit_window_state env opts w).prev_y = w.window_y ∧
    (reinit_window_state env opts w).prev_width = w.dw ∧
    (reinit_window_state env opts w).prev_height = w.dh := by
  simp [reinit_window_state, signal_events, hc, ho, apply_ite]

theorem reinit_exit_fields (env : Env) (opts : MpVoOpts) (w : VoW32State)
    (hc : w.current_fs = true) (ho : opts.fullscreen = false)
    (hfw : (if opts.fit_border then
              w.prev_width + ((env.adjust (update_style opts false)).right -
                              (env.adjust (update_style opts false)).left)
            else w.prev_width) ≤ (env.screen false).x1 - (env.screen false).x0)
    (hfh : (if opts.fit_border then
              w.prev_height + ((env.adjust (update_style opts false)).bottom -
                               (env.adjust (update_style opts false)).top)
            else w.prev_height) ≤ (env.screen false).y1 - (env.screen false).y0) :
    (reinit_window_state env opts w).window_x = w.prev_x ∧
    (reinit_window_state env opts w).window_y = w.prev_y ∧
    (reinit_window_state env opts w).dw = w.prev_width ∧
    (reinit_window_state env opts w).dh = w.prev_height := by
  cases hfb : opts.fit_border <;>
    simp only [hfb, if_true, if_false, Bool.false_eq_true, update_style,
      Bool.not_false, Bool.and_true] at hfw hfh <;>
    simp [reinit_window_state, signal_events, hc, ho, update_style,
      add_window_borders, hfb, apply_ite] <;>
    refine ⟨?_, ?_, ?_, ?_⟩ <;>
    (intro hcond; exfalso; rcases hcond with hcond | hcond <;> omega)

/-- C3 counterexample: for the concrete initial windowed geometry
`(0, 0, 2000, 600)` on a 1920×1080 screen (borderless window), entering
fullscreen and then exiting does NOT restore `dw`: the restored 2000-wide
client rectangle is wider than the screen, so the oversized-window
handling letterboxes it to 1920 instead of restoring it. -/
theorem fs_round_trip_c3_counterexample :
    w_big.current_fs = false ∧
    (reinit_window_state env0 opts_nb
        (reinit_window_state env0 opts_nb_fs w_big)).dw ≠ w_big.dw := by
  decide

/-- C3 (amended): entering fullscreen from a windowed state and then
exiting, with no intermediate geometry-changing call and unchanged
non-fullscreen options, restores `(window_x, window_y, dw, dh)` to
exactly their pre-fullscreen values — provided the saved geometry fits
the exit screen on both axes (its border-inclusive window rectangle under
`--fit-border`, its client rectangle otherwise); an oversized saved
geometry is letterboxed to fit instead. -/
theorem fs_round_trip_c3 (env : Env) (opts : MpVoOpts) (w : VoW32State)
    (hc : w.current_fs = false) (ho : opts.fullscreen = false)
    (hfw : (if opts.fit_border then
              w.dw + ((env.adjust (update_style opts false)).right -
                      (env.adjust (update_style opts false)).left)
            else w.dw) ≤ (env.screen false).x1 - (env.screen false).x0)
    (hfh : (if opts.fit_border then
              w.dh + ((env.adjust (update_style opts false)).bottom -
                      (env.adjust (update_style opts false)).top)
            else w.dh) ≤ (env.screen false).y1 - (env.screen false).y0) :
    (reinit_window_state env opts
        (reinit_window_state env { opts with fullscreen := true } w)).window_x =
      w.window_x ∧
    (reinit_window_state env opts
        (reinit_window_state env { opts with fullscreen := true } w)).window_y =
      w.window_y ∧
    (reinit_window_state env opts
        (reinit_window_state env { opts with fullscreen := true } w)).dw = w.dw ∧
    (reinit_window_state env opts
        (reinit_window_state env { opts with fullscreen := true } w)).dh = w.dh := by
  have henter := reinit_enter_fields env { opts with fullscreen := true } w hc rfl
  have hfs1 : (reinit_window_state env { opts with fullscreen := true } w).current_fs = true := by
    rw [reinit_current_fs]
  have hexit := reinit_exit_fields env opts
    (reinit_window_state env { opts with fullscreen := true } w) hfs1 ho
    (by rw [henter.2.2.1]; exact hfw) (by rw [henter.2.2.2]; exact hfh)
  refine ⟨?_, ?_, ?_, ?_⟩
  · rw [hexit.1, henter.1]
  · rw [hexit.2.1, henter.2.1]
  · rw [hexit.2.2.1, henter.2.2.1]
  · rw [hexit.2.2.2, henter.2.2.2]

/-- Witness for C3 (amended): the scenario from the spec — a window at
`(100, 100, 800, 600)` on a 1920×1080 screen, bordered, fit-border on —
round-trips through fullscreen exactly. -/
theorem fs_round_trip_c3_witness :
    (reinit_window_state env0 optsW
        (reinit_window_state env0 { optsW with fullscreen := true } w0)).window_x =
      w0.window_x ∧
    (reinit_window_state env0 optsW
        (reinit_window_state env0 { optsW with fullscreen := true } w0)).window_y =
      w0.window_y ∧
    (reinit_window_state env0 optsW
        (reinit_window_state env0 { optsW with fullscreen := true } w0)).dw = w0.dw ∧
    (reinit_window_state env0 optsW
        (reinit_window_state env0 { optsW with fullscreen := true } w0)).dh = w0.dh :=
  fs_round_trip_c3 env0 optsW w0 rfl rfl (by decide) (by decide)

/-- Frame decoration offsets used by the C6 witness. -/
def b_frame : Rect := { left := -8, top := -31, right := 8, bottom := 8 }

/-- An oversized client rectangle (2000×600) used by the C6 witness. -/
def cr_big : Rect := { left := 0, top := 0, right := 2000, bottom := 600 }

theorem mul_tdiv_bounds {a c : Int} (ha : 0 ≤ a) (hc : 0 < c) :
    c * (a.tdiv c) ≤ a ∧ a < c * (a.tdiv c) + c := by
  rw [Int.tdiv_eq_ediv ha hc.le]
  have h1 := Int.ediv_add_emod a c
  have h2 := Int.emod_nonneg a (ne_of_gt hc)
  have h3 := Int.emod_lt_of_pos a hc
  constructor <;> linarith

theorem tdiv_lt_of_lt_mul {a c k : Int} (ha : 0 ≤ a) (hc : 0 < c)
    (h : a < c * k) : a.tdiv c < k := by
  have hb := (mul_tdiv_bounds ha hc).1
  have : c * (a.tdiv c) < c * k := by linarith
  exact lt_of_mul_lt_mul_left this hc.le

theorem tdiv_le_of_le_mul {a c k : Int} (ha : 0 ≤ a) (hc : 0 < c)
    (h : a ≤ c * k) : a.tdiv c ≤ k := by
  have h2 : a < c * (k + 1) := by rw [mul_add, mul_one]; linarith
  have := tdiv_lt_of_lt_mul ha hc h2
  omega

theorem letterbox_core (cw ch nw nh : Int)
    (hcw : 0 < cw) (hch : 0 < ch) (hnw : 0 < nw) (hnh : 0 < nh) :
    (0 ≤ if cw * nh > nw * ch then nw else Int.tdiv (nh * cw) ch) ∧
    ((if cw * nh > nw * ch then nw else Int.tdiv (nh * cw) ch) ≤ nw) ∧
    (0 ≤ if cw * nh > nw * ch then Int.tdiv (nw * ch) cw else nh) ∧
    ((if cw * nh > nw * ch then Int.tdiv (nw * ch) cw else nh) ≤ nh) ∧
    (-ch < (if cw * nh > nw * ch then nw else Int.tdiv (nh * cw) ch) * ch -
      (if cw * nh > nw * ch then Int.tdiv (nw * ch) cw else nh) * cw) ∧
    ((if cw * nh > nw * ch then nw else Int.tdiv (nh * cw) ch) * ch -
      (if cw * nh > nw * ch then Int.tdiv (nw * ch) cw else nh) * cw < cw) := by
  split_ifs with hltb
  · have hnn : (0:Int) ≤ nw * ch := mul_nonneg hnw.le hch.le
    have hb := mul_tdiv_bounds hnn hcw
    have hlt : Int.tdiv (nw * ch) cw < nh := tdiv_lt_of_lt_mul hnn hcw hltb
    have hc0 : (0:Int) ≤ Int.tdiv (nw * ch) cw := Int.tdiv_nonneg hnn hcw.le
    have hcm : Int.tdiv (nw * ch) cw * cw = cw * Int.tdiv (nw * ch) cw := mul_comm _ _
    refine ⟨hnw.le, le_refl _, hc0, hlt.le, ?_, ?_⟩ <;> linarith
  · have hle : cw * nh ≤ nw * ch := not_lt.mp hltb
    have hnn : (0:Int) ≤ nh * cw := mul_nonneg hnh.le hcw.le
    have hb := mul_tdiv_bounds hnn hch
    have hc0 : (0:Int) ≤ Int.tdiv (nh * cw) ch := Int.tdiv_nonneg hnn hch.le
    have hW : Int.tdiv (nh * cw) ch ≤ nw := by
      refine tdiv_le_of_le_mul hnn hch ?_
      have h1 : nh * cw = cw * nh := mul_comm _ _
      have h2 : ch * nw = nw * ch := mul_comm _ _
      linarith
    have hcm : Int.tdiv (nh * cw) ch * ch = ch * Int.tdiv (nh * cw) ch := mul_comm _ _
    refine ⟨hc0, hW, hnh.le, le_refl _, ?_, ?_⟩ <;> linarith

theorem center_shift (L1 L2 : Int) (h1 : 0 ≤ L1) (h2 : 0 ≤ L2) :
    (2 * Int.tdiv L1 2 - 2 * Int.tdiv L2 2 + L2 - L1).natAbs ≤ 1 := by
  rw [Int.tdiv_eq_ediv h1 (by norm_num), Int.tdiv_eq_ediv h2 (by norm_num)]
  omega

/-- C6: When the requested window rectangle exceeds the screen on either
axis (the border-inclusive rectangle under `--fit-border`, the client
rectangle otherwise), the oversized-window handling produces a client
area no larger than the screen on either axis — and under `--fit-border`
the whole bordered window is no larger than the screen — preserving the
original client-area aspect ratio within integer rounding
(`|dw·ch − dh·cw| < max`), and centered on the original window
rectangle's center within one pixel of rounding. -/
theorem oversize_fit_c6 (fitb : Bool) (b cr : Rect) (screen_w screen_h : Int)
    (hcw : 0 < cr.right - cr.left) (hch : 0 < cr.bottom - cr.top)
    (hbl : b.left ≤ 0) (hbt : b.top ≤ 0) (hbr : 0 ≤ b.right) (hbb : 0 ≤ b.bottom)
    (hnw : 0 < screen_w - (if fitb then b.right - b.left else 0))
    (hnh : 0 < screen_h - (if fitb then b.bottom - b.top else 0))
    (hover : screen_w <
        (if fitb then (add_window_borders b cr).right - (add_window_borders b cr).left
         else cr.right - cr.left) ∨
      screen_h <
        (if fitb then (add_window_borders b cr).bottom - (add_window_borders b cr).top
         else cr.bottom - cr.top)) :
    ((fit_to_screen fitb b screen_w screen_h cr (add_window_borders b cr)).dw ≤ screen_w ∧
     (fit_to_screen fitb b screen_w screen_h cr (add_window_borders b cr)).dh ≤ screen_h) ∧
    (fitb = true →
      (fit_to_screen fitb b screen_w screen_h cr (add_window_borders b cr)).win.right -
        (fit_to_screen fitb b screen_w screen_h cr (add_window_borders b cr)).win.left ≤ screen_w ∧
      (fit_to_screen fitb b screen_w screen_h cr (add_window_borders b cr)).win.bottom -
        (fit_to_screen fitb b screen_w screen_h cr (add_window_borders b cr)).win.top ≤ screen_h) ∧
    (-(cr.bottom - cr.top) <
        (fit_to_screen fitb b screen_w screen_h cr (add_window_borders b cr)).dw * (cr.bottom - cr.top) -
        (fit_to_screen fitb b screen_w screen_h cr (add_window_borders b cr)).dh * (cr.right - cr.left) ∧
      (fit_to_screen fitb b screen_w screen_h cr (add_window_borders b cr)).dw * (cr.bottom - cr.top) -
        (fit_to_screen fitb b screen_w screen_h cr (add_window_borders b cr)).dh * (cr.right - cr.left) <
        cr.right - cr.left) ∧
    (((fit_to_screen fitb b screen_w screen_h cr (add_window_borders b cr)).win.left +
        (fit_to_screen fitb b screen_w screen_h cr (add_window_borders b cr)).win.right) -
      ((add_window_borders b cr).left + (add_window_borders b cr).right)).natAbs ≤ 1 ∧
    (((fit_to_screen fitb b screen_w screen_h cr (add_window_borders b cr)).win.top +
        (fit_to_screen fitb b screen_w screen_h cr (add_window_borders b cr)).win.bottom) -
      ((add_window_borders b cr).top + (add_window_borders b cr).bottom)).natAbs ≤ 1 := by
  obtain ⟨bl, bt, brr, bbb⟩ := b
  obtain ⟨cl, ct, crr, cbb⟩ := cr
  simp only [add_window_borders, fit_to_screen] at *
  cases fitb
  · simp only [if_false, Bool.false_eq_true, reduceIte] at *
    have core := letterbox_core (crr - cl) (cbb - ct) screen_w screen_h
      hcw hch (by linarith) (by linarith)
    split_ifs at core ⊢ with hltb <;>
      obtain ⟨hW0, hWle, hH0, hHle, hasp1, hasp2⟩ := core
    · refine ⟨⟨hWle, hHle⟩, fun h => h.elim, ⟨hasp1, hasp2⟩, ?_, ?_⟩
      · have key := center_shift (crr + brr - (cl + bl)) (screen_w + brr - (0 + bl))
          (by linarith) (by linarith)
        generalize hT1 : Int.tdiv (crr + brr - (cl + bl)) 2 = T1 at key ⊢
        generalize hT2 : Int.tdiv (screen_w + brr - (0 + bl)) 2 = T2 at key ⊢
        omega
      · have key := center_shift (cbb + bbb - (ct + bt))
          (Int.tdiv (screen_w * (cbb - ct)) (crr - cl) + bbb - (0 + bt))
          (by linarith) (by linarith)
        generalize hH : Int.tdiv (screen_w * (cbb - ct)) (crr - cl) = H at key hH0 ⊢
        generalize hT1 : Int.tdiv (cbb + bbb - (ct + bt)) 2 = T1 at key ⊢
        generalize hT2 : Int.tdiv (H + bbb - (0 + bt)) 2 = T2 at key ⊢
        omega
    · refine ⟨⟨hWle, hHle⟩, fun h => h.elim, ⟨hasp1, hasp2⟩, ?_, ?_⟩
      · have key := center_shift (crr + brr - (cl + bl))
          (Int.tdiv (screen_h * (crr - cl)) (cbb - ct) + brr - (0 + bl))
          (by linarith) (by linarith)
        generalize hW : Int.tdiv (screen_h * (crr - cl)) (cbb - ct) = W at key hW0 ⊢
        generalize hT1 : Int.tdiv (crr + brr - (cl + bl)) 2 = T1 at key ⊢
        generalize hT2 : Int.tdiv (W + brr - (0 + bl)) 2 = T2 at key ⊢
        omega
      · have key := center_shift (cbb + bbb - (ct + bt)) (screen_h + bbb - (0 + bt))
          (by linarith) (by linarith)
        generalize hT1 : Int.tdiv (cbb + bbb - (ct + bt)) 2 = T1 at key ⊢
        generalize hT2 : Int.tdiv (screen_h + bbb - (0 + bt)) 2 = T2 at key ⊢
        omega
  · simp only [if_true, reduceIte] at *
    have core := letterbox_core (crr - cl) (cbb - ct)
      (screen_w - (crr + brr - crr) - (cl - (cl + bl)))
      (screen_h - (cbb + bbb - cbb) - (ct - (ct + bt)))
      hcw hch (by linarith) (by linarith)
    split_ifs at core ⊢ with hltb <;>
      obtain ⟨hW0, hWle, hH0, hHle, hasp1, hasp2⟩ := core
    · refine ⟨⟨by linarith, by linarith⟩, fun h => ⟨by linarith, by linarith⟩,
        ⟨hasp1, hasp2⟩, ?_, ?_⟩
      · have key := center_shift (crr + brr - (cl + bl))
          (screen_w - (crr + brr - crr) - (cl - (cl + bl)) + brr - (0 + bl))
          (by linarith) (by linarith)
        generalize hT1 : Int.tdiv (crr + brr - (cl + bl)) 2 = T1 at key ⊢
        generalize hT2 : Int.tdiv
          (screen_w - (crr + brr - crr) - (cl - (cl + bl)) + brr - (0 + bl)) 2 = T2 at key ⊢
        omega
      · have key := center_shift (cbb + bbb - (ct + bt))
          (Int.tdiv ((screen_w - (crr + brr - crr) - (cl - (cl + bl))) * (cbb - ct)) (crr - cl) +
            bbb - (0 + bt))
          (by linarith) (by linarith)
        generalize hH : Int.tdiv
          ((screen_w - (crr + brr - crr) - (cl - (cl + bl))) * (cbb - ct)) (crr - cl) = H at key hH0 ⊢
        generalize hT1 : Int.tdiv (cbb + bbb - (ct + bt)) 2 = T1 at key ⊢
        generalize hT2 : Int.tdiv (H + bbb - (0 + bt)) 2 = T2 at key ⊢
        omega
    · refine ⟨⟨by linarith, by linarith⟩, fun h => ⟨by linarith, by linarith⟩,
        ⟨hasp1, hasp2⟩, ?_, ?_⟩
      · have key := center_shift (crr + brr - (cl + bl))
          (Int.tdiv ((screen_h - (cbb + bbb - cbb) - (ct - (ct + bt))) * (crr - cl)) (cbb - ct) +
            brr - (0 + bl))
          (by linarith) (by linarith)
        generalize hW : Int.tdiv
          ((screen_h - (cbb + bbb - cbb) - (ct - (ct + bt))) * (crr - cl)) (cbb - ct) = W at key hW0 ⊢
        generalize hT1 : Int.tdiv (crr + brr - (cl + bl)) 2 = T1 at key ⊢
        generalize hT2 : Int.tdiv (W + brr - (0 + bl)) 2 = T2 at key ⊢
        omega
      · have key := center_shift (cbb + bbb - (ct + bt))
          (screen_h - (cbb + bbb - cbb) - (ct - (ct + bt)) + bbb - (0 + bt))
          (by linarith) (by linarith)
        generalize hT1 : Int.tdiv (cbb + bbb - (ct + bt)) 2 = T1 at key ⊢
        generalize hT2 : Int.tdiv
          (screen_h - (cbb + bbb - cbb) - (ct - (ct + bt)) + bbb - (0 + bt)) 2 = T2 at key ⊢
        omega


/-- Witness for C6: a 2000×600 client area with classic frame borders on
a 1920×1080 screen under `--fit-border` is letterboxed, bounded by the
screen, aspect-preserved and centered. -/
theorem oversize_fit_c6_witness :
    ((fit_to_screen true b_frame 1920 1080 cr_big (add_window_borders b_frame cr_big)).dw ≤ 1920 ∧
     (fit_to_screen true b_frame 1920 1080 cr_big (add_window_borders b_frame cr_big)).dh ≤ 1080) ∧
    (true = true →
      (fit_to_screen true b_frame 1920 1080 cr_big (add_window_borders b_frame cr_big)).win.right -
        (fit_to_screen true b_frame 1920 1080 cr_big (add_window_borders b_frame cr_big)).win.left ≤ 1920 ∧
      (fit_to_screen true b_frame 1920 1080 cr_big (add_window_borders b_frame cr_big)).win.bottom -
        (fit_to_screen true b_frame 1920 1080 cr_big (add_window_borders b_frame cr_big)).win.top ≤ 1080) ∧
    (-(cr_big.bottom - cr_big.top) <
        (fit_to_screen true b_frame 1920 1080 cr_big (add_window_borders b_frame cr_big)).dw * (cr_big.bottom - cr_big.top) -
        (fit_to_screen true b_frame 1920 1080 cr_big (add_window_borders b_frame cr_big)).dh * (cr_big.right - cr_big.left) ∧
      (fit_to_screen true b_frame 1920 1080 cr_big (add_window_borders b_frame cr_big)).dw * (cr_big.bottom - cr_big.top) -
        (fit_to_screen true b_frame 1920 1080 cr_big (add_window_borders b_frame cr_big)).dh * (cr_big.right - cr_big.left) <
        cr_big.right - cr_big.left) ∧
    (((fit_to_screen true b_frame 1920 1080 cr_big (add_window_borders b_frame cr_big)).win.left +
        (fit_to_screen true b_frame 1920 1080 cr_big (add_window_borders b_frame cr_big)).win.right) -
      ((add_window_borders b_frame cr_big).left + (add_window_borders b_frame cr_big).right)).natAbs ≤ 1 ∧
    (((fit_to_screen true b_frame 1920 1080 cr_big (add_window_borders b_frame cr_big)).win.top +
        (fit_to_screen true b_frame 1920 1080 cr_big (add_window_borders b_frame cr_big)).win.bottom) -
      ((add_window_borders b_frame cr_big).top + (add_window_borders b_frame cr_big).bottom)).natAbs ≤ 1 :=
  oversize_fit_c6 true b_frame cr_big 1920 1080 (by decide) (by decide)
    (by decide) (by decide) (by decide) (by decide) (by decide) (by decide)
    (by decide)

end W32

